import Mathlib

/-!
Verification of the session and API-client lifecycle manager of the
chameleon-admin repository (the services/api module, in its fullest
variant which manages the four resource families Template, User, Job
and Alert).

Shallow embedding conventions:
  * Module-level mutable state (the sessionStorage record under the key
    admin_auth, the four client singletons, and object identity of
    constructed clients) is gathered into an explicit `ApiState` record
    that every operation threads.
  * A constructed axios client is an `AxiosConfig` value; a constructed
    resource client additionally carries a fresh numeric id drawn from a
    counter, so that JavaScript object identity (same instance vs. a
    structurally equal reconstruction) is observable.
  * A JavaScript Date value obtained from `new Date(x)` is modelled by
    its parse result `Option Int` (milliseconds); `none` is an Invalid
    Date (a missing or unparseable `expires_at`). The JS comparison
    `d1 < d2` on an Invalid Date is false, which `dateBeforeNow` mirrors.
  * The stored record is `Option StoredData`: `none` when no record is
    persisted, `some .malformed` for a record on which JSON.parse throws,
    and `some (.record s)` for a record that parses; a parsed record that
    lacks a usable `expires_at` is a `.record` whose `expires_at` is `none`.
  * `throw` is `Except.error` over `JsError`, which distinguishes a plain
    `new Error(msg)`, an `AxiosError` (with optional response), and any
    other thrown value. Network outcomes of the remote endpoint are
    inputs to `login` and `verifyToken`.
  * JavaScript truthiness of the optional token argument of the get
    accessors is mirrored by `tokenTruthy`: absent and the empty string
    are both falsy.
-/

namespace Chameleon

/-- Fixed API root, from the source constant BASE_URL. -/
def BASE_URL : String := "https://chameleon-api-446996287300.us-central1.run.app"

/-- The configuration of an axios instance produced by createApiClient. -/
structure AxiosConfig where
  baseURL : String
  contentType : String
  authorization : String
deriving Repr, DecidableEq

/-- createApiClient(token): axios.create with the admin base URL, a JSON
content type and a bearer Authorization header fixed at construction. -/
def createApiClient (token : String) : AxiosConfig :=
  { baseURL := BASE_URL ++ "/api/v1/admin"
    contentType := "application/json"
    authorization := "Bearer " ++ token }

/-- The observable shape of a request issued through a client: every
request method of a resource client calls this.client.get/post/..., so
its URL and headers come from the instance configuration. -/
structure HttpRequest where
  url : String
  contentType : String
  authorization : String
deriving Repr, DecidableEq

/-- A request issued through an axios instance: base URL plus path, and
the headers fixed when the instance was created. -/
def clientRequest (c : AxiosConfig) (path : String) : HttpRequest :=
  { url := c.baseURL ++ path
    contentType := c.contentType
    authorization := c.authorization }

/-- The part of an AxiosError response the module inspects:
error.response.status and error.response.data.message (the latter is
`none` when data or data.message is absent). -/
structure AxiosResponse where
  status : Nat
  dataMessage : Option String
deriving Repr, DecidableEq

/-- A thrown JavaScript value as the module discriminates it:
a plain `new Error(msg)`, an AxiosError (whose response is absent on a
pure transport failure), or any other thrown value. -/
inductive JsError where
  | error (msg : String)
  | axiosError (response : Option AxiosResponse)
  | other (tag : String)
deriving Repr, DecidableEq

/-- The admin user object carried in the session record. -/
structure AdminUser where
  id : String
  email : String
deriving Repr, DecidableEq

/-- The session record: the four fields saveAuth persists. `expires_at`
is the parse result of the stored date string (none = Invalid Date). -/
structure Session where
  token : String
  user : AdminUser
  permissions : List String
  expires_at : Option Int
deriving Repr, DecidableEq

/-- What sits under the admin_auth key: a record JSON.parse accepts, or
bytes on which JSON.parse throws. -/
inductive StoredData where
  | record (s : Session)
  | malformed
deriving Repr, DecidableEq

/-- A constructed resource client: its axios configuration plus a fresh
id modelling JavaScript object identity. -/
structure ClientInstance where
  id : Nat
  client : AxiosConfig
deriving Repr, DecidableEq

/-- The module-level mutable state: the sessionStorage slot and the four
singleton variables templateApi, userApi, jobApi, alertApi, plus the
fresh-id counter for object identity. -/
structure ApiState where
  storage : Option StoredData
  templateApi : Option ClientInstance
  userApi : Option ClientInstance
  jobApi : Option ClientInstance
  alertApi : Option ClientInstance
  nextId : Nat
deriving Repr, DecidableEq

/-- JS truthiness of the optional token argument: absent and the empty
string are falsy. -/
def tokenTruthy : Option String → Bool
  | none => false
  | some t => t != ""

/-- JS `new Date(x) < new Date()`: false whenever x parses to an Invalid
Date, otherwise the strict comparison of timestamps. -/
def dateBeforeNow (expiresAt : Option Int) (now : Int) : Bool :=
  match expiresAt with
  | some t => t < now
  | none => false

/-- getTemplateApi(token?): lazily constructs the singleton when absent
and a truthy token is supplied, then throws Template API not initialized
when still absent, else returns the singleton. -/
def getTemplateApi (token : Option String) (st : ApiState) :
    Except JsError (ClientInstance × ApiState) :=
  let st1 :=
    if st.templateApi.isNone && tokenTruthy token then
      { st with templateApi := some ⟨st.nextId, createApiClient (token.getD "")⟩
                nextId := st.nextId + 1 }
    else st
  match st1.templateApi with
  | none => .error (.error "Template API not initialized")
  | some c => .ok (c, st1)

/-- initTemplateApi(token): unconditionally reconstructs the singleton. -/
def initTemplateApi (token : String) (st : ApiState) : ApiState :=
  { st with templateApi := some ⟨st.nextId, createApiClient token⟩
            nextId := st.nextId + 1 }

/-- clearTemplateApi(): drops the singleton reference. -/
def clearTemplateApi (st : ApiState) : ApiState :=
  { st with templateApi := none }

/-- getUserApi(token?): same pattern as getTemplateApi. -/
def getUserApi (token : Option String) (st : ApiState) :
    Except JsError (ClientInstance × ApiState) :=
  let st1 :=
    if st.userApi.isNone && tokenTruthy token then
      { st with userApi := some ⟨st.nextId, createApiClient (token.getD "")⟩
                nextId := st.nextId + 1 }
    else st
  match st1.userApi with
  | none => .error (.error "User API not initialized")
  | some c => .ok (c, st1)

/-- initUserApi(token): unconditionally reconstructs the singleton. -/
def initUserApi (token : String) (st : ApiState) : ApiState :=
  { st with userApi := some ⟨st.nextId, createApiClient token⟩
            nextId := st.nextId + 1 }

/-- clearUserApi(): drops the singleton reference. -/
def clearUserApi (st : ApiState) : ApiState :=
  { st with userApi := none }

/-- getJobApi(token?): same pattern as getTemplateApi. -/
def getJobApi (token : Option String) (st : ApiState) :
    Except JsError (ClientInstance × ApiState) :=
  let st1 :=
    if st.jobApi.isNone && tokenTruthy token then
      { st with jobApi := some ⟨st.nextId, createApiClient (token.getD "")⟩
                nextId := st.nextId + 1 }
    else st
  match st1.jobApi with
  | none => .error (.error "Job API not initialized")
  | some c => .ok (c, st1)

/-- initJobApi(token): unconditionally reconstructs the singleton. -/
def initJobApi (token : String) (st : ApiState) : ApiState :=
  { st with jobApi := some ⟨st.nextId, createApiClient token⟩
            nextId := st.nextId + 1 }

/-- clearJobApi(): drops the singleton reference. -/
def clearJobApi (st : ApiState) : ApiState :=
  { st with jobApi := none }

/-- getAlertApi(token?): same pattern as getTemplateApi. -/
def getAlertApi (token : Option String) (st : ApiState) :
    Except JsError (ClientInstance × ApiState) :=
  let st1 :=
    if st.alertApi.isNone && tokenTruthy token then
      { st with alertApi := some ⟨st.nextId, createApiClient (token.getD "")⟩
                nextId := st.nextId + 1 }
    else st
  match st1.alertApi with
  | none => .error (.error "Alert API not initialized")
  | some c => .ok (c, st1)

/-- initAlertApi(token): unconditionally reconstructs the singleton. -/
def initAlertApi (token : String) (st : ApiState) : ApiState :=
  { st with alertApi := some ⟨st.nextId, createApiClient token⟩
            nextId := st.nextId + 1 }

/-- clearAlertApi(): drops the singleton reference. -/
def clearAlertApi (st : ApiState) : ApiState :=
  { st with alertApi := none }

/-- saveAuth(data): serializes the four fields token, user, permissions,
expires_at under the admin_auth key, overwriting any prior value. -/
def saveAuth (data : Session) (st : ApiState) : ApiState :=
  { st with storage := some (.record
      { token := data.token
        user := data.user
        permissions := data.permissions
        expires_at := data.expires_at }) }

/-- clearAuth(): removes the persisted record and clears the Template,
User, Job and Alert singletons, all in one call. -/
def clearAuth (st : ApiState) : ApiState :=
  clearAlertApi (clearJobApi (clearUserApi (clearTemplateApi
    { st with storage := none })))

/-- getAuth(): returns null when no record is stored; tries JSON.parse
inside try/catch, returning null when it throws; on a parsed record whose
expires_at date is strictly before now, calls clearAuth and returns null;
otherwise returns the parsed record. It never itself throws: every
failure path yields the absent answer. -/
def getAuth (now : Int) (st : ApiState) : Option Session × ApiState :=
  match st.storage with
  | none => (none, st)
  | some .malformed => (none, st)
  | some (.record parsed) =>
    if dateBeforeNow parsed.expires_at now then
      (none, clearAuth st)
    else
      (some parsed, st)

/-- login(email, password): posts the credentials and unwraps data on
success; on an AxiosError with response status 401 throws
Error(Invalid email or password); else on an AxiosError whose
response.data.message is truthy throws Error(message); otherwise
rethrows the original error. The network outcome of the post is the
`outcome` argument. -/
def login (_email _password : String) (outcome : Except JsError Session) :
    Except JsError Session :=
  match outcome with
  | .ok resp => .ok resp
  | .error e =>
    match e with
    | .axiosError (some r) =>
      if r.status == 401 then
        .error (.error "Invalid email or password")
      else
        match r.dataMessage with
        | some m => if m != "" then .error (.error m) else .error e
        | none => .error e
    | _ => .error e

/-- verifyToken(token): issues a get on /verify through a client bound
to the token; returns true on success, false on an AxiosError with
response status 401, and rethrows any other error. The network outcome
of the probe is the `outcome` argument. -/
def verifyToken (_token : String) (outcome : Except JsError Unit) :
    Except JsError Bool :=
  match outcome with
  | .ok _ => .ok true
  | .error e =>
    match e with
    | .axiosError (some r) =>
      if r.status == 401 then .ok false else .error e
    | _ => .error e

/-- A state with nothing stored and no singleton constructed, as at
module load. -/
def emptyState : ApiState :=
  { storage := none, templateApi := none, userApi := none
    jobApi := none, alertApi := none, nextId := 0 }

/-! ### Claim theorems -/

/-- C1: for every stored session record whose expires_at is strictly
before the current time, getAuth returns absent and, in the same call,
removes the persisted record and clears all four resource-client
singletons, so a subsequent get on any resource family without a token
fails with the NotInitialized error. -/
theorem C1_expired_load_teardown (st : ApiState) (s : Session) (t now : Int)
    (hrec : st.storage = some (.record s)) (hexp : s.expires_at = some t)
    (hlt : t < now) :
    (getAuth now st).1 = none ∧
    (getAuth now st).2.storage = none ∧
    (getAuth now st).2.templateApi = none ∧
    (getAuth now st).2.userApi = none ∧
    (getAuth now st).2.jobApi = none ∧
    (getAuth now st).2.alertApi = none ∧
    getTemplateApi none (getAuth now st).2 =
      .error (.error "Template API not initialized") ∧
    getUserApi none (getAuth now st).2 =
      .error (.error "User API not initialized") ∧
    getJobApi none (getAuth now st).2 =
      .error (.error "Job API not initialized") ∧
    getAlertApi none (getAuth now st).2 =
      .error (.error "Alert API not initialized") := by
  have hdate : dateBeforeNow s.expires_at now = true := by
    simp [dateBeforeNow, hexp]; exact hlt
  simp [getAuth, hrec, hdate, clearAuth, clearTemplateApi, clearUserApi,
        clearJobApi, clearAlertApi, getTemplateApi, getUserApi, getJobApi,
        getAlertApi, tokenTruthy]

/-- Concrete state for the C1 witness: an expired record is stored and a
Template client is live. -/
def sessionC1 : Session :=
  { token := "t1", user := { id := "u1", email := "a@b.com" }
    permissions := ["read"], expires_at := some (-5) }

def stateC1 : ApiState :=
  { storage := some (.record sessionC1)
    templateApi := some ⟨0, createApiClient "t1"⟩
    userApi := some ⟨1, createApiClient "t1"⟩
    jobApi := some ⟨2, createApiClient "t1"⟩
    alertApi := some ⟨3, createApiClient "t1"⟩
    nextId := 4 }

/-- Witness for C1 at a concrete expired state. -/
theorem C1_witness :
    (getAuth 0 stateC1).1 = none ∧
    (getAuth 0 stateC1).2.storage = none ∧
    (getAuth 0 stateC1).2.templateApi = none ∧
    (getAuth 0 stateC1).2.userApi = none ∧
    (getAuth 0 stateC1).2.jobApi = none ∧
    (getAuth 0 stateC1).2.alertApi = none ∧
    getTemplateApi none (getAuth 0 stateC1).2 =
      .error (.error "Template API not initialized") ∧
    getUserApi none (getAuth 0 stateC1).2 =
      .error (.error "User API not initialized") ∧
    getJobApi none (getAuth 0 stateC1).2 =
      .error (.error "Job API not initialized") ∧
    getAlertApi none (getAuth 0 stateC1).2 =
      .error (.error "Alert API not initialized") :=
  C1_expired_load_teardown stateC1 sessionC1 (-5) 0 rfl rfl (by decide)

/-- C2: clearAuth is a full teardown: after it, the persisted record is
gone and get on each of the four resource families without a token fails
with that family's NotInitialized error. -/
theorem C2_logout_full_teardown (st : ApiState) :
    (clearAuth st).storage = none ∧
    getTemplateApi none (clearAuth st) =
      .error (.error "Template API not initialized") ∧
    getUserApi none (clearAuth st) =
      .error (.error "User API not initialized") ∧
    getJobApi none (clearAuth st) =
      .error (.error "Job API not initialized") ∧
    getAlertApi none (clearAuth st) =
      .error (.error "Alert API not initialized") := by
  simp [clearAuth, clearTemplateApi, clearUserApi, clearJobApi,
        clearAlertApi, getTemplateApi, getUserApi, getJobApi, getAlertApi,
        tokenTruthy]

/-- C4: saveAuth(S) followed immediately by getAuth returns exactly S
(all four fields round-trip) whenever the expiry of S is in the future,
and the stored record is left in place. -/
theorem C4_save_load_roundtrip (st : ApiState) (s : Session) (t now : Int)
    (hexp : s.expires_at = some t) (hfut : now < t) :
    getAuth now (saveAuth s st) = (some s, saveAuth s st) := by
  have hdate : dateBeforeNow s.expires_at now = false := by
    simp [dateBeforeNow, hexp]; omega
  simp [getAuth, saveAuth, hdate]

/-- Witness for C4 at a concrete future-dated session. -/
theorem C4_witness :
    getAuth 0 (saveAuth
      { token := "t1", user := { id := "u1", email := "a@b.com" }
        permissions := ["read"], expires_at := some 100 } emptyState) =
    (some { token := "t1", user := { id := "u1", email := "a@b.com" }
            permissions := ["read"], expires_at := some 100 },
     saveAuth
      { token := "t1", user := { id := "u1", email := "a@b.com" }
        permissions := ["read"], expires_at := some 100 } emptyState) :=
  C4_save_load_roundtrip emptyState
    { token := "t1", user := { id := "u1", email := "a@b.com" }
      permissions := ["read"], expires_at := some 100 } 100 0 rfl (by decide)

/-- C8: a malformed stored record is treated exactly like the no-session
case: getAuth returns absent with the state untouched in both cases (its
try/catch means no exception reaches the caller). -/
theorem C8_malformed_like_absent (st st2 : ApiState) (now : Int)
    (hm : st.storage = some .malformed) (ha : st2.storage = none) :
    getAuth now st = (none, st) ∧ getAuth now st2 = (none, st2) := by
  constructor
  · simp [getAuth, hm]
  · simp [getAuth, ha]

/-- Witness for C8: malformed record and empty storage, concretely. -/
theorem C8_witness :
    getAuth 7 { emptyState with storage := some .malformed } =
      (none, { emptyState with storage := some .malformed }) ∧
    getAuth 7 emptyState = (none, emptyState) :=
  C8_malformed_like_absent
    { emptyState with storage := some .malformed } emptyState 7 rfl rfl

/-- C10: a stored record that parses but whose expires_at is missing or
not a parseable date (an Invalid Date, modelled as none) is returned as a
live session: the comparison Invalid Date < now is false, so no teardown
happens and the record is not rejected. -/
theorem C10_invalid_expiry_is_live (st : ApiState) (s : Session) (now : Int)
    (hrec : st.storage = some (.record s)) (hexp : s.expires_at = none) :
    getAuth now st = (some s, st) := by
  simp [getAuth, hrec, dateBeforeNow, hexp]

/-- Concrete record without a parseable expiry for the C10 witness. -/
def sessionC10 : Session :=
  { token := "t2", user := { id := "u2", email := "b@c.com" }
    permissions := [], expires_at := none }

/-- Witness for C10 at a concrete record with an unparseable expiry. -/
theorem C10_witness :
    getAuth 1000 { emptyState with storage := some (.record sessionC10) } =
      (some sessionC10,
       { emptyState with storage := some (.record sessionC10) }) :=
  C10_invalid_expiry_is_live
    { emptyState with storage := some (.record sessionC10) }
    sessionC10 1000 rfl rfl

/-- Appending to the fixed prefix Bearer-space is injective on tokens. -/
theorem bearer_inj {a b : String} (h : "Bearer " ++ a = "Bearer " ++ b) :
    a = b := by
  have hd : "Bearer ".data ++ a.data = "Bearer ".data ++ b.data := by
    simpa [String.data_append] using congrArg String.data h
  exact String.ext (List.append_cancel_left hd)

/-- C5: for each resource family, init(tokenA) then init(tokenB)
replaces the singleton: the client a subsequent get returns is the one
constructed from tokenB, and every request issued through it carries the
Bearer tokenB Authorization header, which for distinct tokens is never
the tokenA header. -/
theorem C5_init_replaces_binding (a b path : String) (st : ApiState)
    (hab : a ≠ b) :
    getTemplateApi none (initTemplateApi b (initTemplateApi a st)) =
      .ok (⟨st.nextId + 1, createApiClient b⟩,
           initTemplateApi b (initTemplateApi a st)) ∧
    getUserApi none (initUserApi b (initUserApi a st)) =
      .ok (⟨st.nextId + 1, createApiClient b⟩,
           initUserApi b (initUserApi a st)) ∧
    getJobApi none (initJobApi b (initJobApi a st)) =
      .ok (⟨st.nextId + 1, createApiClient b⟩,
           initJobApi b (initJobApi a st)) ∧
    getAlertApi none (initAlertApi b (initAlertApi a st)) =
      .ok (⟨st.nextId + 1, createApiClient b⟩,
           initAlertApi b (initAlertApi a st)) ∧
    (clientRequest (createApiClient b) path).authorization = "Bearer " ++ b ∧
    (clientRequest (createApiClient b) path).authorization ≠ "Bearer " ++ a := by
  refine ⟨?_, ?_, ?_, ?_, rfl, ?_⟩
  · simp [getTemplateApi, initTemplateApi, tokenTruthy]
  · simp [getUserApi, initUserApi, tokenTruthy]
  · simp [getJobApi, initJobApi, tokenTruthy]
  · simp [getAlertApi, initAlertApi, tokenTruthy]
  · intro h
    exact hab (bearer_inj (show _ from h)).symm

/-- Witness for C5 with tokens A and B from the empty state. -/
theorem C5_witness :
    getTemplateApi none (initTemplateApi "B" (initTemplateApi "A" emptyState)) =
      .ok (⟨emptyState.nextId + 1, createApiClient "B"⟩,
           initTemplateApi "B" (initTemplateApi "A" emptyState)) ∧
    getUserApi none (initUserApi "B" (initUserApi "A" emptyState)) =
      .ok (⟨emptyState.nextId + 1, createApiClient "B"⟩,
           initUserApi "B" (initUserApi "A" emptyState)) ∧
    getJobApi none (initJobApi "B" (initJobApi "A" emptyState)) =
      .ok (⟨emptyState.nextId + 1, createApiClient "B"⟩,
           initJobApi "B" (initJobApi "A" emptyState)) ∧
    getAlertApi none (initAlertApi "B" (initAlertApi "A" emptyState)) =
      .ok (⟨emptyState.nextId + 1, createApiClient "B"⟩,
           initAlertApi "B" (initAlertApi "A" emptyState)) ∧
    (clientRequest (createApiClient "B") "/templates").authorization =
      "Bearer " ++ "B" ∧
    (clientRequest (createApiClient "B") "/templates").authorization ≠
      "Bearer " ++ "A" :=
  C5_init_replaces_binding "A" "B" "/templates" emptyState (by decide)

/-- C6 counterexample: with no Template singleton, get with the
empty-string token does not construct a client bound to it; the empty
string is falsy in the lazy-construction test, so the call fails with
NotInitialized instead. -/
theorem C6_counterexample :
    emptyState.templateApi = none ∧
    getTemplateApi (some "") emptyState =
      .error (.error "Template API not initialized") := by
  exact ⟨rfl, rfl⟩

/-- C6 amended: for each resource family, when no singleton exists,
get(token) with a NON-EMPTY token constructs one bound to that token and
caches it, and a subsequent get with no argument returns the same client
instance with the state unchanged (identity-stable singleton, no
duplicate construction); with the empty-string token, get instead fails
with NotInitialized. -/
theorem C6_lazy_construct_then_cache (tok : String) (htok : tok ≠ "")
    (st : ApiState) :
    (st.templateApi = none → ∃ c st2,
      getTemplateApi (some tok) st = .ok (c, st2) ∧
      c.client = createApiClient tok ∧ st2.templateApi = some c ∧
      getTemplateApi none st2 = .ok (c, st2)) ∧
    (st.userApi = none → ∃ c st2,
      getUserApi (some tok) st = .ok (c, st2) ∧
      c.client = createApiClient tok ∧ st2.userApi = some c ∧
      getUserApi none st2 = .ok (c, st2)) ∧
    (st.jobApi = none → ∃ c st2,
      getJobApi (some tok) st = .ok (c, st2) ∧
      c.client = createApiClient tok ∧ st2.jobApi = some c ∧
      getJobApi none st2 = .ok (c, st2)) ∧
    (st.alertApi = none → ∃ c st2,
      getAlertApi (some tok) st = .ok (c, st2) ∧
      c.client = createApiClient tok ∧ st2.alertApi = some c ∧
      getAlertApi none st2 = .ok (c, st2)) := by
  have htr : tokenTruthy (some tok) = true := by
    simp [tokenTruthy, htok]
  refine ⟨?_, ?_, ?_, ?_⟩
  · intro hT
    refine ⟨⟨st.nextId, createApiClient tok⟩,
      { st with templateApi := some ⟨st.nextId, createApiClient tok⟩
                nextId := st.nextId + 1 }, ?_, rfl, rfl, ?_⟩
    · simp [getTemplateApi, hT, htr]
    · simp [getTemplateApi, tokenTruthy]
  · intro hU
    refine ⟨⟨st.nextId, createApiClient tok⟩,
      { st with userApi := some ⟨st.nextId, createApiClient tok⟩
                nextId := st.nextId + 1 }, ?_, rfl, rfl, ?_⟩
    · simp [getUserApi, hU, htr]
    · simp [getUserApi, tokenTruthy]
  · intro hJ
    refine ⟨⟨st.nextId, createApiClient tok⟩,
      { st with jobApi := some ⟨st.nextId, createApiClient tok⟩
                nextId := st.nextId + 1 }, ?_, rfl, rfl, ?_⟩
    · simp [getJobApi, hJ, htr]
    · simp [getJobApi, tokenTruthy]
  · intro hA
    refine ⟨⟨st.nextId, createApiClient tok⟩,
      { st with alertApi := some ⟨st.nextId, createApiClient tok⟩
                nextId := st.nextId + 1 }, ?_, rfl, rfl, ?_⟩
    · simp [getAlertApi, hA, htr]
    · simp [getAlertApi, tokenTruthy]

/-- Witness for C6 at a concrete non-empty token and the empty state. -/
theorem C6_witness :
    (∃ c st2, getTemplateApi (some "tk") emptyState = .ok (c, st2) ∧
      c.client = createApiClient "tk" ∧ st2.templateApi = some c ∧
      getTemplateApi none st2 = .ok (c, st2)) ∧
    (∃ c st2, getUserApi (some "tk") emptyState = .ok (c, st2) ∧
      c.client = createApiClient "tk" ∧ st2.userApi = some c ∧
      getUserApi none st2 = .ok (c, st2)) ∧
    (∃ c st2, getJobApi (some "tk") emptyState = .ok (c, st2) ∧
      c.client = createApiClient "tk" ∧ st2.jobApi = some c ∧
      getJobApi none st2 = .ok (c, st2)) ∧
    (∃ c st2, getAlertApi (some "tk") emptyState = .ok (c, st2) ∧
      c.client = createApiClient "tk" ∧ st2.alertApi = some c ∧
      getAlertApi none st2 = .ok (c, st2)) :=
  ⟨(C6_lazy_construct_then_cache "tk" (by decide) emptyState).1 rfl,
   (C6_lazy_construct_then_cache "tk" (by decide) emptyState).2.1 rfl,
   (C6_lazy_construct_then_cache "tk" (by decide) emptyState).2.2.1 rfl,
   (C6_lazy_construct_then_cache "tk" (by decide) emptyState).2.2.2 rfl⟩

/-- C9: for each resource family, when a singleton already exists, get
with ANY token argument returns the existing singleton unchanged and
leaves the state unchanged: get never rebinds or reconstructs. -/
theorem C9_get_never_rebinds (tok : Option String) (st : ApiState) :
    (∀ c, st.templateApi = some c → getTemplateApi tok st = .ok (c, st)) ∧
    (∀ c, st.userApi = some c → getUserApi tok st = .ok (c, st)) ∧
    (∀ c, st.jobApi = some c → getJobApi tok st = .ok (c, st)) ∧
    (∀ c, st.alertApi = some c → getAlertApi tok st = .ok (c, st)) := by
  refine ⟨?_, ?_, ?_, ?_⟩ <;> intro c hc
  · simp [getTemplateApi, hc]
  · simp [getUserApi, hc]
  · simp [getJobApi, hc]
  · simp [getAlertApi, hc]

/-- Concrete state for the C9 witness: all four singletons live, bound
to the token orig. -/
def stateC9 : ApiState :=
  { storage := none
    templateApi := some ⟨0, createApiClient "orig"⟩
    userApi := some ⟨1, createApiClient "orig"⟩
    jobApi := some ⟨2, createApiClient "orig"⟩
    alertApi := some ⟨3, createApiClient "orig"⟩
    nextId := 4 }

/-- Witness for C9: get with a different token returns each original
client at a concrete state. -/
theorem C9_witness :
    getTemplateApi (some "other") stateC9 =
      .ok (⟨0, createApiClient "orig"⟩, stateC9) ∧
    getUserApi (some "other") stateC9 =
      .ok (⟨1, createApiClient "orig"⟩, stateC9) ∧
    getJobApi (some "other") stateC9 =
      .ok (⟨2, createApiClient "orig"⟩, stateC9) ∧
    getAlertApi (some "other") stateC9 =
      .ok (⟨3, createApiClient "orig"⟩, stateC9) :=
  ⟨(C9_get_never_rebinds (some "other") stateC9).1 _ rfl,
   (C9_get_never_rebinds (some "other") stateC9).2.1 _ rfl,
   (C9_get_never_rebinds (some "other") stateC9).2.2.1 _ rfl,
   (C9_get_never_rebinds (some "other") stateC9).2.2.2 _ rfl⟩

/-- C3 counterexample: an error response with status 500 whose data
carries the message field holding the empty string. The claim says login
must fail with a RemoteError carrying that message; the code tests the
message for truthiness, the empty string is falsy, and the original
transport error is propagated unchanged instead. -/
theorem C3_counterexample :
    ({ status := 500, dataMessage := some "" } : AxiosResponse).dataMessage
      = some "" ∧
    ({ status := 500, dataMessage := some "" } : AxiosResponse).status ≠ 401 ∧
    login "a@b.com" "pw"
      (.error (.axiosError (some { status := 500, dataMessage := some "" }))) =
      .error (.axiosError (some { status := 500, dataMessage := some "" })) ∧
    (JsError.axiosError (some { status := 500, dataMessage := some "" }) ≠
      JsError.error "") := by
  refine ⟨rfl, by decide, rfl, by decide⟩

/-- C3 amended: on a 401 response login fails with exactly the
InvalidCredentials error; on any other error response carrying a
NON-EMPTY message field it fails with a RemoteError carrying that
message; on every other error (including a response whose message field
holds the empty string) the underlying error is propagated unchanged. -/
theorem C3_login_error_mapping (email pw : String)
    (out : Except JsError Session) :
    (∀ r, out = .error (.axiosError (some r)) → r.status = 401 →
      login email pw out = .error (.error "Invalid email or password")) ∧
    (∀ r m, out = .error (.axiosError (some r)) → r.status ≠ 401 →
      r.dataMessage = some m → m ≠ "" →
      login email pw out = .error (.error m)) ∧
    (∀ e, out = .error e →
      (∀ r, e = .axiosError (some r) →
        r.status ≠ 401 ∧ ∀ m, r.dataMessage = some m → m = "") →
      login email pw out = .error e) := by
  refine ⟨?_, ?_, ?_⟩
  · intro r ho h401
    subst ho
    simp [login, h401]
  · intro r m ho h401 hm hne
    subst ho
    simp [login, h401, hm, hne]
  · intro e ho hcond
    subst ho
    cases e with
    | error msg => rfl
    | other tag => rfl
    | axiosError ro =>
      cases ro with
      | none => rfl
      | some r =>
        obtain ⟨h401, hmsg⟩ := hcond r rfl
        cases hr : r.dataMessage with
        | none => simp [login, h401, hr]
        | some m =>
          have hme : m = "" := hmsg m hr
          subst hme
          simp [login, h401, hr]

/-- Witness for C3 at a concrete pure transport error, which login
propagates unchanged. -/
theorem C3_witness :
    login "a@b.com" "pw" (.error (.other "ECONNREFUSED")) =
      .error (.other "ECONNREFUSED") :=
  (C3_login_error_mapping "a@b.com" "pw" (.error (.other "ECONNREFUSED"))).2.2
    (.other "ECONNREFUSED") rfl (by intro r hr; cases hr)

/-- C7: verifyToken returns false exactly on an AxiosError whose
response status is 401, returns true exactly when the probe succeeds,
and propagates every other error unchanged. -/
theorem C7_verify_probe_mapping (tok : String) (out : Except JsError Unit) :
    (verifyToken tok out = .ok false ↔
      ∃ r, out = .error (.axiosError (some r)) ∧ r.status = 401) ∧
    (verifyToken tok out = .ok true ↔ out = .ok ()) ∧
    (∀ e, out = .error e →
      (∀ r, e = .axiosError (some r) → r.status ≠ 401) →
      verifyToken tok out = .error e) := by
  refine ⟨?_, ?_, ?_⟩
  · cases out with
    | ok u => simp [verifyToken]
    | error e =>
      cases e with
      | error msg => simp [verifyToken]
      | other tag => simp [verifyToken]
      | axiosError ro =>
        cases ro with
        | none => simp [verifyToken]
        | some r =>
          by_cases h : r.status = 401
          · simp [verifyToken, h]
          · simp [verifyToken, h]
  · cases out with
    | ok u => simp [verifyToken]
    | error e =>
      cases e with
      | error msg => simp [verifyToken]
      | other tag => simp [verifyToken]
      | axiosError ro =>
        cases ro with
        | none => simp [verifyToken]
        | some r =>
          by_cases h : r.status = 401
          · simp [verifyToken, h]
          · simp [verifyToken, h]
  · intro e ho h401
    subst ho
    cases e with
    | error msg => rfl
    | other tag => rfl
    | axiosError ro =>
      cases ro with
      | none => rfl
      | some r => simp [verifyToken, (h401 r rfl)]

/-- Witness for C7 at a concrete 401 probe answer, mapped to false. -/
theorem C7_witness :
    verifyToken "tk"
      (.error (.axiosError (some { status := 401, dataMessage := none }))) =
      .ok false :=
  ((C7_verify_probe_mapping "tk"
      (.error (.axiosError (some { status := 401, dataMessage := none })))).1).mpr
    ⟨{ status := 401, dataMessage := none }, rfl, rfl⟩

end Chameleon
